import Mathlib

/-!
Verification development for the GDPR Notice Generator (appv2.py).

The application is a forms-over-data questionnaire: a company unlocks a
session with an access code, edits an ordered list of processing purposes
(each with a detail record), persists the questionnaire state to a
spreadsheet backend keyed by a sanitized organization name, and finally
flattens the state into export rows and a rendered notice.

Shallow-embedding conventions used below:
* Python dictionaries with string keys are association lists
  (`List (String × _)`) with first-match lookup (`dictGet?`), mirroring
  `dict.get(key, default)` via `Option.getD`.
* A detail record is a structure of `Option` fields; `none` models a key
  absent from the Python dict, so each call site keeps its own default
  exactly as the source writes `d.get(key, default)`.
* The Google Sheets backend is modelled as an in-memory map from worksheet
  (tab) title to the stored state mapping.  JSON serialization
  (`json.dumps` / `json.loads`) is modelled as the identity on the state
  mapping, which is faithful for the JSON-representable values stored here.
* Streamlit session state is an association list from key to an untyped
  `Value`.
-/

/-- First-match lookup in an association list with string keys; models
Python `dict[key]` / `dict.get(key)`. -/
def dictGet? {β : Type} (k : String) : List (String × β) → Option β
  | [] => none
  | (k2, v) :: rest => if k = k2 then some v else dictGet? k rest

/-- Models Python `str.strip()`: remove leading and trailing whitespace. -/
def pyStrip (s : String) : String :=
  String.mk (((s.data.dropWhile Char.isWhitespace).reverse.dropWhile
    Char.isWhitespace).reverse)

/-- The fixed catalog of standard data categories (`DATA_CATEGORIES` in
appv2.py), a read-only mapping from category name to description. -/
def apos : String := String.mk [Char.ofNat 39]

def DATA_CATEGORIES : List (String × String) := [
  ("Identification data and contact details", "name, home address, phone numbers, email, DOB, ID numbers"),
  ("Personal characteristics", "age, gender, marital status, languages, emergency contacts"),
  ("Immigration data", "visa, passport, work permits"),
  ("Composition of household", "name, address and DOB of dependents"),
  ("Genetic information", "inherited or genetic characteristics"),
  ("Physical data", "size, weight, hair/eye colour, distinctive features"),
  ("Biometric information", "facial images, fingerprints, behavioural characteristics"),
  ("Health-related data", "physical/mental health, medical certificates"),
  ("Aspects of lifestyle", "eating and drinking habits, behavioural data, wellness information that does not qualify as " ++ apos ++ "health data" ++ apos),
  ("Complaints/Incidents/Accidents", "information about accidents or complaints involved in"),
  ("Leisure activities", "hobbies, sports, interests"),
  ("Memberships", "charitable, voluntary, or club memberships"),
  ("Electronic localisation data", "GPS tracking, mobile phone location"),
  ("Personal beliefs", "religious or philosophical beliefs"),
  ("Ethnicity", "information on racial/ethnic origin"),
  ("Sex life", "information relating to sexual activity or sexual orientation"),
  ("Political/Union", "political affiliation, mandates, trade union membership"),
  ("Judicial details", "criminal records, alleged offences"),
  ("Education and training", "CV, degrees, interview notes, certifications"),
  ("Profession and job", "salary, function, attendance, work history"),
  ("Financial details", "payroll, tax, bank accounts, expenses, pensions"),
  ("Performance information", "grades, disciplinary records, absence records"),
  ("Picture recordings", "camera recording, photographic recording, video recording, digital photographs, images of surveillance cameras"),
  ("Audio recordings", "tape recording, recorded phone calls or messages"),
  ("Electronic identification", "User ID, passwords, IP addresses"),
  ("Insurance and benefits", "Health and life insurance claims"),
  ("Dietary preferences", "Dietary restrictions or preferences as specified by the user"),
  ("Social security number", "national social security number")]

/-- The per-purpose detail record written back by the editor.  Each field is
optional: `none` models the key being absent from the Python dict, so the
various `d.get(key, default)` call sites keep their own defaults. -/
structure Detail where
  categories : Option (List String) := none
  extra_cats : Option (List String) := none
  comment : Option String := none
  direct_per_cat : Option (List (String × Bool)) := none
  indirect_source : Option String := none
  shared : Option String := none
  retention : Option String := none
  transfers : Option String := none
deriving DecidableEq

/-- A processing purpose: title, plain-language description, detail record.
A freshly added purpose carries the empty detail dict. -/
structure Purpose where
  title : String
  desc : String
  details : Detail := {}
deriving DecidableEq

/-- Untyped values held in Streamlit session state, restricted to the
shapes the saveable keys actually hold: strings, lists of strings
(custom-category lists), and the purposes list. -/
inductive Value where
  | str (s : String)
  | strList (l : List String)
  | purposes (l : List Purpose)
deriving DecidableEq

/-- Python `len` on the session values that can sit under a saveable key. -/
def pyLen : Value → Nat
  | .str s => s.length
  | .strList l => l.length
  | .purposes l => l.length

/-- Streamlit session state, modelled as an association list. -/
abbrev Session := List (String × Value)

/-- The spreadsheet backend: worksheet (tab) title to stored state mapping. -/
abbrev Store := List (String × Session)

/-- Models `make_tab_name`: replace every character in
backslash, slash, question mark, asterisk, square brackets, colon by a
hyphen, strip surrounding single-quote characters, truncate to 100
characters.  The seven single-character `str.replace` calls of the source
compose into one character-wise map because each pattern is a single
character, the patterns are pairwise distinct, and the replacement hyphen
is not itself a pattern. -/
def illegalTabChars : List Char := ['\\', '/', '?', '*', '[', ']', ':']

def make_tab_name (company_name : String) : String :=
  let replaced := company_name.data.map
    (fun c => if illegalTabChars.contains c then '-' else c)
  let stripped := ((replaced.dropWhile (fun c => c = Char.ofNat 39)).reverse.dropWhile
    (fun c => c = Char.ofNat 39)).reverse
  String.mk (stripped.take 100)

/-- Models `validate_code`: strip the entered code and look it up in the
static access-code to company-name table. -/
def validate_code (companies : List (String × String)) (code : String) :
    Option String :=
  dictGet? (pyStrip code) companies

/-- Models `load_data_from_sheet`: open the worksheet named by the
sanitized company name and parse the stored state; a missing worksheet
(`WorksheetNotFound`) yields the empty state. -/
def load_data_from_sheet (company_name : String) (store : Store) : Session :=
  match dictGet? (make_tab_name company_name) store with
  | some s => s
  | none => []

/-- Models `save_data_to_sheet`: upsert the single record of the worksheet
named by the sanitized company name.  The source either updates row 2 of
an existing worksheet or appends the first data row of a fresh one; the
net effect on the one stored record is this map update. -/
def save_data_to_sheet (company_name : String) (state : Session)
    (store : Store) : Store :=
  let tab := make_tab_name company_name
  match dictGet? tab store with
  | some _ => store.map (fun e => if e.1 = tab then (tab, state) else e)
  | none => store ++ [(tab, state)]

/-- Models `extract_saveable_state`: collect the four fixed keys that are
present in the session, then `extra_cats_i` for each purpose index. -/
def extract_saveable_state (ss : Session) : Session :=
  let base := ["company_name", "subject_cat", "activities", "purposes"].foldl
    (fun acc key =>
      match dictGet? key ss with
      | some v => acc ++ [(key, v)]
      | none => acc) []
  let n : Nat :=
    match dictGet? "purposes" ss with
    | some v => pyLen v
    | none => 0
  (List.range n).foldl
    (fun acc i =>
      let k := "extra_cats_" ++ toString i
      match dictGet? k ss with
      | some v => acc ++ [(k, v)]
      | none => acc) base

/-- Models `restore_state`: for each saved key in order, set it in the
session only when the key is not already present. -/
def restore_state (saved : Session) (ss : Session) : Session :=
  saved.foldl
    (fun acc kv => if (dictGet? kv.1 acc).isSome then acc else acc ++ [kv]) ss

/-- The state the access-code gate manipulates: the `authenticated` and
`current_company` session flags plus the rest of session state. -/
structure GateSession where
  authenticated : Bool := false
  current_company : Option String := none
  session : Session := []
deriving DecidableEq

/-- The message the gate reports after an unlock attempt. -/
inductive UnlockMsg where
  | progressLoaded (company : String)
  | startingFresh (company : String)
  | incorrectCode
deriving DecidableEq

/-- Models the Unlock button handler: validate the code; on a match mark
the session authenticated, record the company, load saved state and merge
it (only when non-empty); on no match report failure and change nothing. -/
def unlock (companies : List (String × String)) (store : Store)
    (code : String) (gs : GateSession) : GateSession × UnlockMsg :=
  match validate_code companies code with
  | some company =>
      let saved := load_data_from_sheet company store
      if saved = [] then
        ({ gs with authenticated := true, current_company := some company },
          .startingFresh company)
      else
        ({ authenticated := true, current_company := some company,
           session := restore_state saved gs.session },
          .progressLoaded company)
  | none => (gs, .incorrectCode)

/-- Models the Add Purpose form handler: a non-empty (truthy) title appends
one purpose with the given title, description and empty detail dict; an
empty title leaves the list unchanged. -/
def addPurpose (purposes : List Purpose) (p_title p_desc : String) :
    List Purpose :=
  if p_title ≠ "" then
    purposes ++ [{ title := p_title, desc := p_desc, details := {} }]
  else purposes

/-- Models the multiselect default for a reloaded purpose: saved category
names are kept only when they are keys of the fixed catalog. -/
def categoryMultiselectDefault (default_cats : List String) : List String :=
  default_cats.filter (fun c => (dictGet? c DATA_CATEGORIES).isSome)

/-- One row of the Processing Details export table. -/
structure Row where
  company : String
  subjectCategory : String
  purpose : String
  description : String
  dataCategory : String
  obtainedDirectly : String
  sourceIfNotDirect : String
  sharing : String
  retention : String
  transfers : String
deriving DecidableEq

/-- Models the export row loop of Generate Excel & Final Notice for one
purpose: one row per selected-or-custom category, falling back to a single
row with empty category and direct columns when there is none. -/
def exportRowsForPurpose (companyName subjectCat : String) (p : Purpose) :
    List Row :=
  let d := p.details
  let direct_per_cat := d.direct_per_cat.getD []
  let cats_list := d.categories.getD []
  let extra_list := d.extra_cats.getD []
  let all_cats_export := cats_list ++ extra_list
  if all_cats_export ≠ [] then
    all_cats_export.map (fun cat =>
      { company := companyName
        subjectCategory := subjectCat
        purpose := p.title
        description := p.desc
        dataCategory := cat
        obtainedDirectly :=
          if (dictGet? cat direct_per_cat).getD true then "Yes" else "No"
        sourceIfNotDirect :=
          if (dictGet? cat direct_per_cat).getD true then ""
          else d.indirect_source.getD ""
        sharing := d.shared.getD ""
        retention := d.retention.getD ""
        transfers := d.transfers.getD "" })
  else
    [{ company := companyName
       subjectCategory := subjectCat
       purpose := p.title
       description := p.desc
       dataCategory := ""
       obtainedDirectly := ""
       sourceIfNotDirect := d.indirect_source.getD ""
       sharing := d.shared.getD ""
       retention := d.retention.getD ""
       transfers := d.transfers.getD "" }]

/-- The full export table: rows appended purpose by purpose in list order. -/
def exportRows (companyName subjectCat : String) (purposes : List Purpose) :
    List Row :=
  purposes.foldl
    (fun acc p => acc ++ exportRowsForPurpose companyName subjectCat p) []

/-- Catalog description used by the notice; an unknown category falls back
to its own name (`DATA_CATEGORIES.get(cat, cat)`). -/
def catalogDescription (cat : String) : String :=
  (dictGet? cat DATA_CATEGORIES).getD cat

/-- Models the source line of the rendered notice for one category: the
direct flag defaults to true; when it is false, a blank or absent
indirect-source note falls back to "Not specified" (Python `or`). -/
def sourceLine (d : Detail) (cat : String) : String :=
  let is_direct := (dictGet? cat (d.direct_per_cat.getD [])).getD true
  if is_direct then
    "**Source:** Obtained directly from you."
  else
    let source_text :=
      match d.indirect_source with
      | none => "Not specified"
      | some s => if s = "" then "Not specified" else s
    "**Source:** Not obtained directly from you — " ++ source_text

/-- Models the per-category block of the rendered notice. -/
def noticeCategoryBlock (p : Purpose) (cat : String) : List String :=
  let d := p.details
  ["**Specifics:** " ++ catalogDescription cat,
   "**Purpose:** " ++ p.title,
   "**How long we keep it:** " ++ d.retention.getD "",
   "**Disclosed to:** " ++ d.shared.getD "",
   sourceLine d cat]
  ++ (if d.transfers.getD "No" ≠ "No"
      then ["Note: This data is transferred outside the EU/UK."] else [])

/-- Models the Which personal data do we use section for one purpose:
one titled block per selected-or-custom category. -/
def noticeForPurpose (p : Purpose) : List (String × List String) :=
  let d := p.details
  (d.categories.getD [] ++ d.extra_cats.getD []).map
    (fun cat => ("Category: " ++ cat, noticeCategoryBlock p cat))

/-! Helper lemmas about association-list lookup and `restore_state`. -/

theorem dictGet_append_some {β : Type} {l1 l2 : List (String × β)} {k : String}
    {v : β} (h : dictGet? k l1 = some v) : dictGet? k (l1 ++ l2) = some v := by
  induction l1 with
  | nil => simp [dictGet?] at h
  | cons e rest ih =>
    obtain ⟨k2, v2⟩ := e
    by_cases hk : k = k2
    · simp [dictGet?, hk] at h ⊢
      exact h
    · simp [dictGet?, hk] at h ⊢
      exact ih h

theorem dictGet_append_none {β : Type} {l1 l2 : List (String × β)} {k : String}
    (h : dictGet? k l1 = none) : dictGet? k (l1 ++ l2) = dictGet? k l2 := by
  induction l1 with
  | nil => simp
  | cons e rest ih =>
    obtain ⟨k2, v2⟩ := e
    by_cases hk : k = k2
    · simp [dictGet?, hk] at h
    · simp [dictGet?, hk] at h ⊢
      exact ih h

theorem restore_state_cons (kv : String × Value) (rest ss : Session) :
    restore_state (kv :: rest) ss =
      restore_state rest
        (if (dictGet? kv.1 ss).isSome then ss else ss ++ [kv]) := rfl

theorem restore_state_lookup_some (saved : Session) :
    ∀ (ss : Session) (k : String) (v : Value), dictGet? k ss = some v →
      dictGet? k (restore_state saved ss) = some v := by
  induction saved with
  | nil => intro ss k v h; simpa [restore_state] using h
  | cons kv rest ih =>
    intro ss k v h
    rw [restore_state_cons]
    by_cases hs : (dictGet? kv.1 ss).isSome
    · rw [if_pos hs]; exact ih ss k v h
    · rw [if_neg hs]; exact ih _ k v (dictGet_append_some h)

theorem restore_state_lookup_none (saved : Session) :
    ∀ (ss : Session) (k : String), dictGet? k ss = none →
      dictGet? k (restore_state saved ss) = dictGet? k saved := by
  induction saved with
  | nil => intro ss k h; simpa [restore_state, dictGet?] using h
  | cons kv rest ih =>
    intro ss k h
    obtain ⟨k2, v2⟩ := kv
    rw [restore_state_cons]
    by_cases hk : k = k2
    · subst hk
      have hs : ¬ (dictGet? k ss).isSome := by simp [h]
      rw [if_neg hs]
      have hadd : dictGet? k (ss ++ [(k, v2)]) = some v2 := by
        rw [dictGet_append_none h]; simp [dictGet?]
      rw [restore_state_lookup_some rest _ k v2 hadd]
      simp [dictGet?]
    · have hrhs : dictGet? k ((k2, v2) :: rest) = dictGet? k rest := by
        simp [dictGet?, hk]
      rw [hrhs]
      by_cases hs : (dictGet? k2 ss).isSome
      · rw [if_pos hs]; exact ih ss k h
      · rw [if_neg hs]
        refine ih _ k ?_
        rw [dictGet_append_none h]
        simp [dictGet?, hk]

theorem dictGet_map_replace {β : Type} (tab : String) (state : β) :
    ∀ (store : List (String × β)) (x : β), dictGet? tab store = some x →
      dictGet? tab
        (store.map (fun e => if e.1 = tab then (tab, state) else e)) =
        some state := by
  intro store
  induction store with
  | nil => intro x h; simp [dictGet?] at h
  | cons e rest ih =>
    intro x h
    obtain ⟨k2, v2⟩ := e
    simp only [List.map_cons]
    by_cases hk : k2 = tab
    · subst hk
      rw [if_pos rfl]
      simp [dictGet?]
    · rw [if_neg hk]
      have hk2 : ¬ tab = k2 := fun hh => hk hh.symm
      simp only [dictGet?, if_neg hk2] at h ⊢
      exact ih x h

theorem load_after_save (company : String) (state : Session) (store : Store) :
    load_data_from_sheet company (save_data_to_sheet company state store) =
      state := by
  unfold load_data_from_sheet save_data_to_sheet
  cases hs : dictGet? (make_tab_name company) store with
  | none =>
    simp only [hs]
    rw [dictGet_append_none hs]
    simp [dictGet?]
  | some x =>
    simp only [hs]
    rw [dictGet_map_replace (make_tab_name company) state store x hs]

/-! Claim theorems: session-state save, load and restore. -/

/-- C4: restore_state assigns a saved value only to keys absent from the
current session state; a key already present keeps its current value, so
in-progress edits are never overwritten by loaded state. -/
theorem c4_restore_state_never_overwrites (saved ss : Session) (k : String) :
    dictGet? k (restore_state saved ss) =
      match dictGet? k ss with
      | some v => some v
      | none => dictGet? k saved := by
  cases h : dictGet? k ss with
  | some v => simpa using restore_state_lookup_some saved ss k v h
  | none => simpa using restore_state_lookup_none saved ss k h

/-- C3: serializing a questionnaire state with extract_saveable_state and
save_data_to_sheet, reloading it by the same organization name with
load_data_from_sheet, and restoring into a session that contains none of
the saved keys yields the saved value at every saved key. -/
theorem c3_save_load_restore_roundtrip (ss : Session) (store : Store)
    (company : String) (session2 : Session)
    (h : ∀ k ∈ (extract_saveable_state ss).map Prod.fst,
      dictGet? k session2 = none) :
    ∀ k ∈ (extract_saveable_state ss).map Prod.fst,
      dictGet? k (restore_state
        (load_data_from_sheet company
          (save_data_to_sheet company (extract_saveable_state ss) store))
        session2) =
      dictGet? k (extract_saveable_state ss) := by
  intro k hk
  rw [load_after_save]
  exact restore_state_lookup_none (extract_saveable_state ss) session2 k
    (h k hk)

/-- A concrete questionnaire session used to instantiate the C3 theorem. -/
def c3SampleSession : Session :=
  [("company_name", Value.str "Acme Corp"),
   ("subject_cat", Value.str "Employees"),
   ("activities", Value.str "Organizing music events"),
   ("purposes", Value.purposes [{ title := "Payroll", desc := "Pay employees" }]),
   ("extra_cats_0", Value.strList ["Nickname"])]

theorem c3_save_load_restore_roundtrip_witness :
    dictGet? "company_name"
      (restore_state
        (load_data_from_sheet "Acme Corp"
          (save_data_to_sheet "Acme Corp"
            (extract_saveable_state c3SampleSession) []))
        []) =
      dictGet? "company_name" (extract_saveable_state c3SampleSession) :=
  c3_save_load_restore_roundtrip c3SampleSession [] "Acme Corp" []
    (by decide) "company_name" (by decide)

/-- C5: an entered code that does not map to an organization (after
stripping surrounding whitespace) leaves the gate state untouched: the
session stays unauthenticated, no company is set, no state is loaded, and
only the authentication-failure message is reported. -/
theorem c5_unknown_code_leaves_session_locked
    (companies : List (String × String)) (store : Store) (code : String)
    (gs : GateSession)
    (hv : validate_code companies code = none)
    (ha : gs.authenticated = false) (hc : gs.current_company = none) :
    (unlock companies store code gs).1.authenticated = false ∧
    (unlock companies store code gs).1.current_company = none ∧
    (unlock companies store code gs).1.session = gs.session ∧
    (unlock companies store code gs).2 = UnlockMsg.incorrectCode := by
  simp [unlock, hv, ha, hc]

/-- A locked gate state used to instantiate the C5 theorem. -/
def c5LockedGate : GateSession :=
  { authenticated := false
    current_company := none
    session := [] }

theorem c5_unknown_code_leaves_session_locked_witness :
    (unlock [("acme-code-1234", "Acme Corp")] [] "wrong-code"
      c5LockedGate).1.authenticated = false ∧
    (unlock [("acme-code-1234", "Acme Corp")] [] "wrong-code"
      c5LockedGate).1.current_company = none ∧
    (unlock [("acme-code-1234", "Acme Corp")] [] "wrong-code"
      c5LockedGate).1.session = c5LockedGate.session ∧
    (unlock [("acme-code-1234", "Acme Corp")] [] "wrong-code"
      c5LockedGate).2 = UnlockMsg.incorrectCode :=
  c5_unknown_code_leaves_session_locked [("acme-code-1234", "Acme Corp")] []
    "wrong-code" c5LockedGate (by decide) rfl rfl

/-! Claim theorems: purpose editor and storage-key sanitization. -/

/-- C8: submitting the add-purpose form with an empty title leaves the
purposes list unchanged; a non-empty title appends exactly one purpose
with that title, the given description, and an empty detail record. -/
theorem c8_add_purpose_appends_or_rejects (purposes : List Purpose)
    (t d : String) :
    addPurpose purposes "" d = purposes ∧
    (t ≠ "" → addPurpose purposes t d =
      purposes ++ [{ title := t, desc := d, details := {} }]) := by
  constructor
  · simp [addPurpose]
  · intro ht
    simp [addPurpose, ht]

theorem c8_add_purpose_appends_or_rejects_witness :
    addPurpose [] "Payroll" "Pay employees" =
      [{ title := "Payroll", desc := "Pay employees", details := {} }] :=
  ((c8_add_purpose_appends_or_rejects [] "Payroll" "Pay employees").2
    (by decide)).trans (by simp)

/-- Replacing an illegal character by a hyphen yields a character that is
not itself illegal. -/
theorem replaced_char_safe (a : Char) :
    illegalTabChars.contains
      (if illegalTabChars.contains a then '-' else a) = false := by
  cases hil : illegalTabChars.contains a with
  | true =>
    show illegalTabChars.contains '-' = false
    decide
  | false =>
    show illegalTabChars.contains a = false
    exact hil

/-- C9: the sanitized storage-partition key contains none of the characters
illegal in the backing store naming scheme and is at most 100 characters
long. -/
theorem c9_make_tab_name_safe (s : String) :
    ((make_tab_name s).data.all
      (fun c => !(illegalTabChars.contains c))) = true ∧
    (make_tab_name s).length ≤ 100 := by
  constructor
  · rw [List.all_eq_true]
    intro c hc
    simp only [make_tab_name] at hc
    have h3 := (List.take_subset _ _) hc
    have h2 := (List.dropWhile_sublist _).subset (List.mem_reverse.mp h3)
    have h1 := (List.dropWhile_sublist _).subset (List.mem_reverse.mp h2)
    obtain ⟨a, _, hfa⟩ := List.mem_map.mp h1
    have hsafe := replaced_char_safe a
    rw [← hfa]
    show (!(illegalTabChars.contains
      (if illegalTabChars.contains a then '-' else a))) = true
    rw [hsafe]
    rfl
  · simp only [make_tab_name]
    exact List.length_take_le _ _

/-- C10: when a saved detail record is loaded into the category editor,
saved standard-category names are kept as multiselect defaults exactly
when they are keys of the fixed catalog, so a saved category absent from
the catalog disappears from the selection on reload. -/
theorem c10_saved_categories_filtered_by_catalog (default_cats : List String)
    (c : String) :
    c ∈ categoryMultiselectDefault default_cats ↔
      c ∈ default_cats ∧ (dictGet? c DATA_CATEGORIES).isSome = true := by
  simp [categoryMultiselectDefault, List.mem_filter]

/-! Claim theorems: export generator and notice renderer. -/

/-- C1 counterexample: a purpose whose detail record has zero selected
standard categories and no custom categories yields one fallback export
row, not zero rows, so the claimed row count N fails at N = 0. -/
theorem c1_zero_categories_counterexample :
    (exportRowsForPurpose "Acme Corp" "Employees"
      { title := "Marketing", desc := "Ads" }).length ≠
    (((({ title := "Marketing", desc := "Ads" } : Purpose)).details.categories.getD
      []).length) := by
  decide

/-- C1 (amended): for a purpose with at least one selected standard
category and no custom categories, the export produces exactly one row per
selected category, in order, each carrying the shared retention, sharing
and transfer fields together with the category-specific
direct-collection and source columns. -/
theorem c1_export_one_row_per_selected_category (cn sc : String)
    (p : Purpose)
    (hextra : p.details.extra_cats.getD [] = [])
    (hcats : p.details.categories.getD [] ≠ []) :
    (exportRowsForPurpose cn sc p).length =
      (p.details.categories.getD []).length ∧
    exportRowsForPurpose cn sc p =
      (p.details.categories.getD []).map (fun cat =>
        { company := cn
          subjectCategory := sc
          purpose := p.title
          description := p.desc
          dataCategory := cat
          obtainedDirectly :=
            if (dictGet? cat (p.details.direct_per_cat.getD [])).getD true
            then "Yes" else "No"
          sourceIfNotDirect :=
            if (dictGet? cat (p.details.direct_per_cat.getD [])).getD true
            then "" else p.details.indirect_source.getD ""
          sharing := p.details.shared.getD ""
          retention := p.details.retention.getD ""
          transfers := p.details.transfers.getD "" }) := by
  have h2 : exportRowsForPurpose cn sc p =
      (p.details.categories.getD []).map (fun cat =>
        { company := cn
          subjectCategory := sc
          purpose := p.title
          description := p.desc
          dataCategory := cat
          obtainedDirectly :=
            if (dictGet? cat (p.details.direct_per_cat.getD [])).getD true
            then "Yes" else "No"
          sourceIfNotDirect :=
            if (dictGet? cat (p.details.direct_per_cat.getD [])).getD true
            then "" else p.details.indirect_source.getD ""
          sharing := p.details.shared.getD ""
          retention := p.details.retention.getD ""
          transfers := p.details.transfers.getD "" }) := by
    simp [exportRowsForPurpose, hextra, hcats]
  exact ⟨by rw [h2]; simp, h2⟩

/-- A concrete purpose with two selected categories, one of them indirect,
used to instantiate the amended C1 theorem. -/
def c1SamplePurpose : Purpose :=
  { title := "Payroll"
    desc := "Pay employees"
    details :=
      { categories := some ["Financial details", "Profession and job"]
        direct_per_cat := some [("Financial details", false)]
        indirect_source := some "Bank feed"
        shared := some "Accounting firm"
        retention := some "7 years"
        transfers := some "Yes (Outside EU/UK)" } }

theorem c1_export_one_row_per_selected_category_witness :
    (exportRowsForPurpose "Acme Corp" "Employees" c1SamplePurpose).length =
      (c1SamplePurpose.details.categories.getD []).length ∧
    exportRowsForPurpose "Acme Corp" "Employees" c1SamplePurpose =
      (c1SamplePurpose.details.categories.getD []).map (fun cat =>
        { company := "Acme Corp"
          subjectCategory := "Employees"
          purpose := c1SamplePurpose.title
          description := c1SamplePurpose.desc
          dataCategory := cat
          obtainedDirectly :=
            if (dictGet? cat
              (c1SamplePurpose.details.direct_per_cat.getD [])).getD true
            then "Yes" else "No"
          sourceIfNotDirect :=
            if (dictGet? cat
              (c1SamplePurpose.details.direct_per_cat.getD [])).getD true
            then "" else c1SamplePurpose.details.indirect_source.getD ""
          sharing := c1SamplePurpose.details.shared.getD ""
          retention := c1SamplePurpose.details.retention.getD ""
          transfers := c1SamplePurpose.details.transfers.getD "" }) :=
  c1_export_one_row_per_selected_category "Acme Corp" "Employees"
    c1SamplePurpose rfl (by decide)

/-- A purpose with no categories but a non-empty indirect-source note; its
fallback export row carries that note in the source column. -/
def c2CounterPurpose : Purpose :=
  { title := "Payroll"
    desc := "Pay employees"
    details := { indirect_source := some "Bank feed" } }

/-- C2 counterexample: with zero categories the single fallback row does
not have an empty source-if-not-direct column when the indirect-source
note is non-empty; the code copies the note into that column. -/
theorem c2_fallback_source_counterexample :
    ((exportRowsForPurpose "Acme Corp" "Employees" c2CounterPurpose).map
      (fun r => r.sourceIfNotDirect) = ["Bank feed"]) ∧
    ("Bank feed" : String) ≠ "" := by
  constructor
  · rfl
  · decide

/-- C2 (amended): for a purpose with zero selected and zero custom
categories the export produces exactly one row; its category and
direct-collection columns are empty strings and its source-if-not-direct
column carries the indirect-source note of the purpose, hence is empty
exactly when that note is empty or absent. -/
theorem c2_fallback_row (cn sc : String) (p : Purpose)
    (hcats : p.details.categories.getD [] = [])
    (hextra : p.details.extra_cats.getD [] = []) :
    exportRowsForPurpose cn sc p =
      [{ company := cn
         subjectCategory := sc
         purpose := p.title
         description := p.desc
         dataCategory := ""
         obtainedDirectly := ""
         sourceIfNotDirect := p.details.indirect_source.getD ""
         sharing := p.details.shared.getD ""
         retention := p.details.retention.getD ""
         transfers := p.details.transfers.getD "" }] := by
  simp [exportRowsForPurpose, hcats, hextra]

theorem c2_fallback_row_witness :
    exportRowsForPurpose "Acme Corp" "Employees" c2CounterPurpose =
      [{ company := "Acme Corp"
         subjectCategory := "Employees"
         purpose := c2CounterPurpose.title
         description := c2CounterPurpose.desc
         dataCategory := ""
         obtainedDirectly := ""
         sourceIfNotDirect := c2CounterPurpose.details.indirect_source.getD ""
         sharing := c2CounterPurpose.details.shared.getD ""
         retention := c2CounterPurpose.details.retention.getD ""
         transfers := c2CounterPurpose.details.transfers.getD "" }] :=
  c2_fallback_row "Acme Corp" "Employees" c2CounterPurpose rfl rfl

/-- C6: when the direct-collection flag of a category is false and the
indirect-source note is blank or absent, the notice source line for that
category carries the fallback text Not specified instead of ending in an
empty string. -/
theorem c6_source_line_fallback (d : Detail) (cat : String)
    (hflag : dictGet? cat (d.direct_per_cat.getD []) = some false)
    (hblank : d.indirect_source = none ∨ d.indirect_source = some "") :
    sourceLine d cat =
      "**Source:** Not obtained directly from you — " ++ "Not specified" := by
  rcases hblank with h | h <;> simp [sourceLine, hflag, h]

/-- A detail record with one category marked not-direct and no
indirect-source note, used to instantiate the C6 theorem. -/
def c6SampleDetail : Detail :=
  { direct_per_cat := some [("Ethnicity", false)] }

theorem c6_source_line_fallback_witness :
    sourceLine c6SampleDetail "Ethnicity" =
      "**Source:** Not obtained directly from you — " ++ "Not specified" :=
  c6_source_line_fallback c6SampleDetail "Ethnicity" (by decide) (Or.inl rfl)

/-- C7: the export rows and the notice blocks of a purpose do not depend
on entries of the per-category direct-collection map whose keys are not
among the currently selected standard or custom categories; two detail
records that agree on the selected categories (and on every other field)
export and render identically. -/
theorem c7_stale_direct_entries_irrelevant (cn sc : String) (p : Purpose)
    (m2 : Option (List (String × Bool)))
    (h : ∀ cat ∈ p.details.categories.getD [] ++ p.details.extra_cats.getD [],
      dictGet? cat (p.details.direct_per_cat.getD []) =
        dictGet? cat (m2.getD [])) :
    exportRowsForPurpose cn sc
      { p with details := { p.details with direct_per_cat := m2 } } =
      exportRowsForPurpose cn sc p ∧
    noticeForPurpose
      { p with details := { p.details with direct_per_cat := m2 } } =
      noticeForPurpose p := by
  constructor
  · simp only [exportRowsForPurpose]
    by_cases hall :
        p.details.categories.getD [] ++ p.details.extra_cats.getD [] = []
    · rw [if_neg (not_not_intro hall), if_neg (not_not_intro hall)]
    · rw [if_pos hall, if_pos hall]
      apply List.map_congr_left
      intro cat hmem
      rw [← h cat hmem]
  · simp only [noticeForPurpose]
    apply List.map_congr_left
    intro cat hmem
    simp only [noticeCategoryBlock, sourceLine]
    rw [← h cat hmem]

/-- A purpose whose direct-per-category map holds only a stale entry for a
category that is not selected, used to instantiate the C7 theorem. -/
def c7SamplePurpose : Purpose :=
  { title := "Recruitment"
    desc := "Hiring"
    details :=
      { categories := some ["Ethnicity"]
        direct_per_cat := some [("Stale category", false)] } }

theorem c7_stale_direct_entries_irrelevant_witness :
    exportRowsForPurpose "Acme Corp" "Employees"
      { c7SamplePurpose with details :=
        { c7SamplePurpose.details with direct_per_cat := none } } =
      exportRowsForPurpose "Acme Corp" "Employees" c7SamplePurpose ∧
    noticeForPurpose
      { c7SamplePurpose with details :=
        { c7SamplePurpose.details with direct_per_cat := none } } =
      noticeForPurpose c7SamplePurpose :=
  c7_stale_direct_entries_irrelevant "Acme Corp" "Employees" c7SamplePurpose
    none (by decide)
